import Mathlib

/-!
Verification of the alerting and readiness-computation engine of the
emergency-cart repository (src/item.py).  The Python code is shallowly
embedded: pandas cells that may be NaN / non-numeric become `Option Int`,
dates become an explicit `Date` structure, SQLite-backed mutations become
pure state transformers, and raised `ValueError`s become `Except` errors.
-/

namespace EmergencyCart

/-- Status labels produced by the per-item classifier `badge_for_row`
(src/item.py lines 1188-1219).  The Python function returns display
strings; each constructor names the corresponding label. -/
inductive Status where
  | NO_EXPIRY_DATA   -- "⚪ No EXP"
  | OUT_OF_STOCK     -- "❌ Out"
  | EXPIRED          -- "🔴 EXP"
  | EXPIRING_SOON    -- "🟡 ≤30d"
  | LOW_STOCK        -- "⚠️ Low"
  | OK               -- "🟢 OK"
deriving DecidableEq, Repr

/-- The guarded test `try: float(cur) <= 0 except: pass` of `badge_for_row`
(src/item.py lines 1198-1202): true only when the stock cell holds a
number that is at most 0; a missing or non-numeric cell makes `float`
raise and the check is skipped (false). -/
def stockLE0 (cur : Option Int) : Bool :=
  match cur with
  | some c => decide (c ≤ 0)
  | none => false

/-- The guarded test `try: float(cur) == 1 except: pass` of `badge_for_row`
(src/item.py lines 1213-1217). -/
def stockEq1 (cur : Option Int) : Bool :=
  match cur with
  | some c => decide (c = 1)
  | none => false

/-- Embedding of `badge_for_row` (src/item.py lines 1188-1219).
`days` is the row's `Days_to_Expire` cell (`none` models NaN, so
`pd.isna(days)` is `days = none`).  `cur` is the row's `Current_Stock`
cell (`none` models a missing or non-numeric value, on which
`float(cur)` raises and the `except: pass` skips that check). -/
def badge_for_row (days : Option Int) (cur : Option Int) : Status :=
  match days with
  | none => Status.NO_EXPIRY_DATA
  | some d =>
    if stockLE0 cur then Status.OUT_OF_STOCK
    else if d ≤ 0 then Status.EXPIRED
    else if 0 < d ∧ d ≤ 30 then Status.EXPIRING_SOON
    else if stockEq1 cur then Status.LOW_STOCK
    else Status.OK

/-- Modelled from the spec: the ordered rule list of section 4.1, written
from the spec's words, to be compared against `badge_for_row`.  Stock is a
plain integer here since the spec rules speak of a numeric
`current_stock`. -/
def classifySpecRules (days : Option Int) (cur : Int) : Status :=
  match days with
  | none => Status.NO_EXPIRY_DATA
  | some d =>
    if cur ≤ 0 then Status.OUT_OF_STOCK
    else if d ≤ 0 then Status.EXPIRED
    else if 0 < d ∧ d ≤ 30 then Status.EXPIRING_SOON
    else if cur = 1 then Status.LOW_STOCK
    else Status.OK

/-- C1: the classifier agrees with the spec's priority-ordered rule list on
every item with a numeric stock cell, and the claimed edge cases hold:
expiry day 0 with positive stock is EXPIRED, day 30 is EXPIRING_SOON,
day 31 (stock above 1) is OK, stock at or below 0 with any defined expiry
is OUT_OF_STOCK, and an undefined expiry is NO_EXPIRY_DATA. -/
theorem classifier_matches_spec_priority (days : Option Int) (cur : Int) :
    badge_for_row days (some cur) = classifySpecRules days cur
    ∧ (0 < cur → badge_for_row (some 0) (some cur) = Status.EXPIRED)
    ∧ (0 < cur → badge_for_row (some 30) (some cur) = Status.EXPIRING_SOON)
    ∧ (1 < cur → badge_for_row (some 31) (some cur) = Status.OK)
    ∧ (cur ≤ 0 → ∀ d : Int, badge_for_row (some d) (some cur) = Status.OUT_OF_STOCK)
    ∧ badge_for_row none (some cur) = Status.NO_EXPIRY_DATA := by
  refine ⟨?_, ?_, ?_, ?_, ?_, rfl⟩
  · cases days with
    | none => rfl
    | some d =>
      simp only [badge_for_row, classifySpecRules, stockLE0, stockEq1,
        decide_eq_true_eq]
  · intro h
    simp only [badge_for_row, stockLE0, stockEq1, decide_eq_true_eq]
    split_ifs <;> first | rfl | omega
  · intro h
    simp only [badge_for_row, stockLE0, stockEq1, decide_eq_true_eq]
    split_ifs <;> first | rfl | omega
  · intro h
    simp only [badge_for_row, stockLE0, stockEq1, decide_eq_true_eq]
    split_ifs <;> first | rfl | omega
  · intro h d
    simp only [badge_for_row, stockLE0, stockEq1, decide_eq_true_eq]
    split_ifs <;> first | rfl | omega

/-! ## Bundle readiness aggregator

`bundle_status_block` (src/item.py lines 20-177) first normalizes the
grouped rows: `Current_Stock` is coerced to a number with NaN filled by 0
(line 38) and `Days_to_Expire` is coerced with NaN filled by 999999
(line 39).  So inside `classify_problems` every cell is numeric. -/

/-- One row of a bundle group after the normalization of
`bundle_status_block` (src/item.py lines 37-39). -/
structure BundleRow where
  name : String
  days : Int
  cur : Int
deriving DecidableEq, Repr

/-- The normalization of src/item.py lines 38-39: `pd.to_numeric(...,
errors="coerce").fillna(0)` for the stock and `.fillna(999999)` for the
days (a `none` raw cell is a coercion failure or missing value). -/
def normalizeBundleRow (name : String) (daysRaw curRaw : Option Int) : BundleRow :=
  ⟨name, daysRaw.getD 999999, curRaw.getD 0⟩

/-- Filter of `expired` in `classify_problems` (src/item.py line 91). -/
def rowExpired (r : BundleRow) : Bool := decide (r.days ≤ 0)

/-- Filter of `exp_soon` in `classify_problems` (src/item.py lines 93-96). -/
def rowExpSoon (w : Int) (r : BundleRow) : Bool := decide (0 < r.days ∧ r.days ≤ w)

/-- Filter of `out_stock` in `classify_problems` (src/item.py line 98). -/
def rowOutStock (r : BundleRow) : Bool := decide (r.cur ≤ 0)

/-- `expired = g[g["Days_to_Expire"].fillna(999999) <= 0]` (line 91). -/
def expiredOf (g : List BundleRow) : List BundleRow := g.filter rowExpired

/-- `exp_soon` of `classify_problems` (lines 93-96), `warn_days = w`. -/
def expSoonOf (w : Int) (g : List BundleRow) : List BundleRow := g.filter (rowExpSoon w)

/-- `out_stock = g[g["Current_Stock"].fillna(0) <= 0]` (line 98). -/
def outStockOf (g : List BundleRow) : List BundleRow := g.filter rowOutStock

/-- `drop_duplicates(subset=["Item_Name"])` (src/item.py line 102): keep
the first row for each name; `seen` carries names already kept. -/
def dropDupByName (seen : List String) : List BundleRow → List BundleRow
  | [] => []
  | r :: rest =>
    if r.name ∈ seen then dropDupByName seen rest
    else r :: dropDupByName (r.name :: seen) rest

/-- `problem = pd.concat([expired, exp_soon, out_stock]).drop_duplicates(
subset=["Item_Name"])` (src/item.py lines 101-102). -/
def problemOf (w : Int) (g : List BundleRow) : List BundleRow :=
  dropDupByName [] (expiredOf g ++ expSoonOf w g ++ outStockOf g)

/-- `is_ready = problem_df.empty` (src/item.py line 125). -/
def bundleReady (w : Int) (g : List BundleRow) : Bool := (problemOf w g).isEmpty

/-- Names of the problem rows, the blocking items reported in the bundle
verdict (src/item.py lines 124-128 and 150-177). -/
def blockerNames (w : Int) (g : List BundleRow) : List String :=
  (problemOf w g).map (fun r => r.name)

lemma dropDupByName_eq_nil (l : List BundleRow) :
    dropDupByName [] l = [] ↔ l = [] := by
  cases l with
  | nil => simp [dropDupByName]
  | cons r rest => simp [dropDupByName]

lemma badge_not_blocked_iff (d c : Int) :
    (badge_for_row (some d) (some c) ≠ Status.OUT_OF_STOCK
      ∧ badge_for_row (some d) (some c) ≠ Status.EXPIRED
      ∧ badge_for_row (some d) (some c) ≠ Status.EXPIRING_SOON)
    ↔ (0 < c ∧ 30 < d) := by
  simp only [badge_for_row, stockLE0, stockEq1, decide_eq_true_eq]
  split_ifs <;> simp <;> try omega

lemma bundleReady_iff_members (g : List BundleRow) :
    bundleReady 30 g = true ↔ ∀ r ∈ g, 0 < r.cur ∧ 30 < r.days := by
  unfold bundleReady problemOf
  rw [List.isEmpty_iff, dropDupByName_eq_nil]
  simp only [List.append_eq_nil, expiredOf, expSoonOf, outStockOf,
    List.filter_eq_nil_iff, rowExpired, rowExpSoon, rowOutStock,
    decide_eq_true_eq]
  constructor
  · rintro ⟨⟨h1, h2⟩, h3⟩ r hr
    have ha := h1 r hr
    have hb := h2 r hr
    have hc := h3 r hr
    omega
  · intro h
    refine ⟨⟨fun r hr => ?_, fun r hr => ?_⟩, fun r hr => ?_⟩ <;>
      (obtain ⟨hc, hd⟩ := h r hr; omega)

/-- A member row of a bundle group as it reaches `bundle_status_block`
*before* the normalization of src/item.py lines 37-39: the
`Days_to_Expire` and `Current_Stock` cells may be NaN or non-numeric
(`none`). -/
structure RawBundleRow where
  name : String
  days : Option Int
  cur : Option Int
deriving DecidableEq, Repr

/-- The normalization of src/item.py lines 37-39 applied to a whole
group: each raw row's cells are coerced and filled (days NaN with
999999, stock NaN with 0) before `classify_problems` runs. -/
def normalizeGroup (g : List RawBundleRow) : List BundleRow :=
  g.map (fun r => normalizeBundleRow r.name r.days r.cur)

/-- C2 (amended): with the default `warn_days = 30`, a bundle group is
READY iff every member — after the bundle block's fills (NaN days as
999999, NaN stock as 0) — has positive stock and more than 30 days to
expiry.  For members with a defined expiry and numeric stock this says
exactly: a member blocks iff its classifier status is OUT_OF_STOCK,
EXPIRED or EXPIRING_SOON (so LOW_STOCK and OK members do not block).  A
member with no expiry date has status NO_EXPIRY_DATA and nevertheless
blocks exactly when its zero-filled stock is at most 0, because the
filled 999999 days pass the expiry filters while the stock filter still
applies.  A group whose sole problem member has stock 0 is NOT_READY
with that member as sole blocker. -/
theorem bundle_ready_raw_characterization (g : List RawBundleRow) :
    (bundleReady 30 (normalizeGroup g) = true ↔
      ∀ r ∈ g, 0 < r.cur.getD 0 ∧ 30 < r.days.getD 999999)
    ∧ (∀ d c : Int, ¬ (0 < c ∧ 30 < d) ↔
        (badge_for_row (some d) (some c) = Status.OUT_OF_STOCK
          ∨ badge_for_row (some d) (some c) = Status.EXPIRED
          ∨ badge_for_row (some d) (some c) = Status.EXPIRING_SOON))
    ∧ (∀ r ∈ g, r.days = none →
        badge_for_row r.days r.cur = Status.NO_EXPIRY_DATA
          ∧ (bundleReady 30 (normalizeGroup [r]) = false ↔ r.cur.getD 0 ≤ 0))
    ∧ bundleReady 30 (normalizeGroup
        [⟨"NSS 1000ml", some 100, some 0⟩, ⟨"RL 1000ml", some 100, some 10⟩,
         ⟨"D5W 1000ml", some 100, some 5⟩]) = false
    ∧ blockerNames 30 (normalizeGroup
        [⟨"NSS 1000ml", some 100, some 0⟩, ⟨"RL 1000ml", some 100, some 10⟩,
         ⟨"D5W 1000ml", some 100, some 5⟩]) = ["NSS 1000ml"] := by
  refine ⟨?_, ?_, ?_, by decide, by decide⟩
  · rw [bundleReady_iff_members]
    constructor
    · intro h r hr
      exact h (normalizeBundleRow r.name r.days r.cur)
        (List.mem_map_of_mem _ hr)
    · intro h x hx
      obtain ⟨r, hr, hxr⟩ := List.mem_map.mp hx
      obtain ⟨hc, hd⟩ := h r hr
      rw [← hxr]
      exact ⟨hc, hd⟩
  · intro d c
    have hb := badge_not_blocked_iff d c
    tauto
  · intro r hr hnone
    refine ⟨by rw [hnone]; rfl, ?_⟩
    have hchar := bundleReady_iff_members (normalizeGroup [r])
    have hmem : ∀ x ∈ normalizeGroup [r],
        x = normalizeBundleRow r.name r.days r.cur := by
      intro x hx
      simp only [normalizeGroup, List.map_cons, List.map_nil,
        List.mem_singleton] at hx
      exact hx
    constructor
    · intro hfalse
      by_contra hpos
      push_neg at hpos
      have hready : bundleReady 30 (normalizeGroup [r]) = true := by
        rw [hchar]
        intro x hx
        rw [hmem x hx]
        simp only [normalizeBundleRow, hnone, Option.getD_none]
        omega
      rw [hready] at hfalse
      cases hfalse
    · intro hle
      cases hb : bundleReady 30 (normalizeGroup [r]) with
      | false => rfl
      | true =>
        exfalso
        have hall := hchar.mp hb (normalizeBundleRow r.name r.days r.cur)
          (by simp [normalizeGroup])
        simp only [normalizeBundleRow, hnone, Option.getD_none] at hall
        omega

/-- C2 counterexample: a single-member bundle whose member is classified
EXPIRING_SOON (in stock, 10 days to expiry) is NOT_READY in the code,
while the claim says it would be READY. -/
theorem bundle_expiring_soon_blocks :
    badge_for_row (some 10) (some 2) = Status.EXPIRING_SOON
    ∧ bundleReady 30 [⟨"Atropine", 10, 2⟩] = false := by
  constructor <;> decide

/-! ## Blocker-name ordering (claim C8) -/

/-- Modelled from the spec: blockers listed in first-seen order within the
group, written from the claim's words for comparison with
`blockerNames`. -/
def firstSeenBlockerNames (w : Int) (g : List BundleRow) : List String :=
  (g.filter (fun r => rowExpired r || rowExpSoon w r || rowOutStock r)).map
    (fun r => r.name)

/-- Name-level duplicate dropping, keeping the first occurrence. -/
def dropDupNames (seen : List String) : List String → List String
  | [] => []
  | n :: rest =>
    if n ∈ seen then dropDupNames seen rest
    else n :: dropDupNames (n :: seen) rest

lemma map_name_dropDupByName (seen : List String) (l : List BundleRow) :
    (dropDupByName seen l).map (fun r => r.name)
      = dropDupNames seen (l.map (fun r => r.name)) := by
  induction l generalizing seen with
  | nil => rfl
  | cons r rest ih =>
    simp only [dropDupByName, List.map_cons, dropDupNames]
    split_ifs with h
    · exact ih seen
    · simp only [List.map_cons, ih (r.name :: seen)]

/-- C8 (amended): the reported blocker list is *not* in first-seen group
order; it is the concatenation order of `classify_problems`: all expired
members first, then expiring-soon members, then out-of-stock members —
each segment in group order — with later duplicate names dropped. -/
theorem blocker_names_order (w : Int) (g : List BundleRow) :
    blockerNames w g =
      dropDupNames [] ((expiredOf g).map (fun r => r.name)
        ++ (expSoonOf w g).map (fun r => r.name)
        ++ (outStockOf g).map (fun r => r.name)) := by
  unfold blockerNames problemOf
  rw [map_name_dropDupByName]
  simp [List.map_append]

/-- C8 counterexample: in a group whose first member is out of stock and
whose second member is expired, the code reports the expired member
first, not the first-seen member. -/
theorem blocker_names_not_first_seen :
    blockerNames 30 [⟨"A", 999999, 0⟩, ⟨"B", -1, 5⟩] = ["B", "A"]
    ∧ firstSeenBlockerNames 30 [⟨"A", 999999, 0⟩, ⟨"B", -1, 5⟩] = ["A", "B"]
    ∧ (["B", "A"] : List String) ≠ ["A", "B"] := by
  refine ⟨by decide, by decide, by decide⟩

/-! ## Stock mutations (claims C3 and C9) -/

/-- The two `ValueError`s of `db_cut_stock` (src/item.py lines 548 and
550): `depleted` is the "already empty" error, `invalidQty` the "asked
for more than available" error. -/
inductive StockErr where
  | depleted
  | invalidQty
deriving DecidableEq, Repr

/-- Embedding of `db_cut_stock` (src/item.py lines 539-556).  `row` is
the fetched `current_stock` cell (`none` models a missing row or NULL,
which the code turns into 0).  On success the new `current_stock` is
returned. -/
def db_cut_stock (row : Option Int) (qty_use : Int) : Except StockErr Int :=
  let cur := row.getD 0
  if cur ≤ 0 then Except.error StockErr.depleted
  else if qty_use > cur then Except.error StockErr.invalidQty
  else Except.ok (cur - qty_use)

/-- Embedding of `db_reset_stock` (src/item.py lines 559-573): the
current stock is set to the item's par `stock` value. -/
def db_reset_stock (stockRow : Option Int) : Int := stockRow.getD 0

/-- C3 counterexample: consuming qty = 0 from current_stock = 3 succeeds
and leaves the stock at 3; the claim says a quantity ≤ 0 raises
InvalidQuantity. -/
theorem cut_stock_qty_zero_accepted :
    db_cut_stock (some 3) 0 = Except.ok 3
    ∧ ∀ e : StockErr, db_cut_stock (some 3) 0 ≠ Except.error e := by
  refine ⟨by simp [db_cut_stock], fun e => by simp [db_cut_stock]⟩

/-- C3 (amended): `db_cut_stock` raises DepletedStock exactly when the
current stock is already at or below 0 (checked first), raises
InvalidQuantity exactly when stock is positive and the quantity exceeds
it, and otherwise succeeds with the stock decremented — quantities ≤ 0
are not rejected.  Consuming 5 from stock 3 gives InvalidQuantity and
consuming 1 from stock 0 gives DepletedStock. -/
theorem cut_stock_error_cases (row : Option Int) (qty : Int) :
    (db_cut_stock row qty = Except.error StockErr.depleted ↔ row.getD 0 ≤ 0)
    ∧ (db_cut_stock row qty = Except.error StockErr.invalidQty ↔
        0 < row.getD 0 ∧ row.getD 0 < qty)
    ∧ (∀ n : Int, db_cut_stock row qty = Except.ok n ↔
        0 < row.getD 0 ∧ qty ≤ row.getD 0 ∧ n = row.getD 0 - qty)
    ∧ db_cut_stock (some 3) 5 = Except.error StockErr.invalidQty
    ∧ db_cut_stock (some 0) 1 = Except.error StockErr.depleted := by
  refine ⟨?_, ?_, fun n => ?_, by simp [db_cut_stock], by simp [db_cut_stock]⟩ <;>
    (simp only [db_cut_stock]; split_ifs <;> simp <;> omega)

/-- Operations a caller can run against one item's stock: `cut qty` is
`db_cut_stock` (an error leaves the row unchanged, since the UPDATE is
never reached), `reset` is `db_reset_stock`. -/
inductive StockOp where
  | cut (qty : Int)
  | reset
deriving DecidableEq, Repr

/-- One item's persisted state: its par `stock` and `current_stock`
columns (src/item.py lines 381-387). -/
structure ItemState where
  stock : Int
  current_stock : Int
deriving DecidableEq, Repr

/-- Effect of one operation on an item row.  `cut` applies
`db_cut_stock`'s UPDATE only on success; `reset` applies
`db_reset_stock`. -/
def applyOp (s : ItemState) (op : StockOp) : ItemState :=
  match op with
  | StockOp.cut q =>
    match db_cut_stock (some s.current_stock) q with
    | Except.ok n => ItemState.mk s.stock n
    | Except.error _ => s
  | StockOp.reset => ItemState.mk s.stock (db_reset_stock (some s.stock))

/-- A sequence of consume / reset operations, applied in order. -/
def runOps (s : ItemState) (ops : List StockOp) : ItemState :=
  ops.foldl applyOp s

lemma applyOp_invariant (s : ItemState) (op : StockOp)
    (h0 : 0 ≤ s.current_stock) (hp : 0 ≤ s.stock) :
    0 ≤ (applyOp s op).current_stock ∧ (applyOp s op).stock = s.stock := by
  cases op with
  | cut q =>
    simp only [applyOp, db_cut_stock, Option.getD_some]
    split_ifs <;> simp <;> omega
  | reset => exact ⟨hp, rfl⟩

lemma runOps_invariant (ops : List StockOp) (s : ItemState)
    (h0 : 0 ≤ s.current_stock) (hp : 0 ≤ s.stock) :
    0 ≤ (runOps s ops).current_stock ∧ (runOps s ops).stock = s.stock := by
  induction ops generalizing s with
  | nil => exact ⟨h0, rfl⟩
  | cons op rest ih =>
    have h := applyOp_invariant s op h0 hp
    have hrest := ih (applyOp s op) h.1 (by rw [h.2]; exact hp)
    simp only [runOps, List.foldl_cons] at hrest ⊢
    exact ⟨hrest.1, hrest.2.trans h.2⟩

/-- C9: starting from a non-negative current stock and a non-negative par
stock, every sequence of consume and reset operations keeps the current
stock non-negative (and never touches the par stock); moreover a consume
that errors leaves the state unchanged and a successful consume
subtracts a quantity that is at most the current stock. -/
theorem stock_never_negative (s : ItemState) (ops : List StockOp)
    (h0 : 0 ≤ s.current_stock) (hp : 0 ≤ s.stock) :
    0 ≤ (runOps s ops).current_stock
    ∧ (runOps s ops).stock = s.stock
    ∧ (∀ q e, db_cut_stock (some s.current_stock) q = Except.error e →
        applyOp s (StockOp.cut q) = s)
    ∧ (∀ q n, db_cut_stock (some s.current_stock) q = Except.ok n →
        q ≤ s.current_stock ∧ n = s.current_stock - q)
    ∧ (applyOp s StockOp.reset).current_stock = s.stock := by
  refine ⟨(runOps_invariant ops s h0 hp).1, (runOps_invariant ops s h0 hp).2,
    ?_, ?_, rfl⟩
  · intro q e he
    simp only [applyOp, he]
  · intro q n hn
    simp only [db_cut_stock, Option.getD_some] at hn
    split_ifs at hn <;> simp at hn <;> omega

/-! ## Snapshot loading (claims C6 and C10) -/

/-- Cleaning of the `Stock` column in `load_items` (src/item.py line
523): `pd.to_numeric(..., errors="coerce").fillna(0)`, so a non-numeric
or missing par stock becomes 0. -/
def cleanStock (stockRaw : Option Int) : Int := stockRaw.getD 0

/-- Cleaning of the `Current_Stock` column in `load_items` (src/item.py
line 524): `pd.to_numeric(..., errors="coerce").fillna(df["Stock"])` — a
non-numeric or missing current stock is filled with the row's cleaned
par `Stock` value, not with 0.  The CSV migration
(`_migrate_csv_to_db_if_needed`, lines 421-422) applies the same
fill. -/
def cleanCurrentStock (stockRaw curRaw : Option Int) : Int :=
  curRaw.getD (cleanStock stockRaw)

/-- C10: a row whose current_stock fails numeric parsing is assigned the
row's par stock value before classification; with par stock 20 it enters
the classifier fully stocked and (with a far expiry) classifies OK, not
OUT_OF_STOCK. -/
theorem load_fills_current_stock_with_par (stockRaw : Option Int) :
    cleanCurrentStock stockRaw none = cleanStock stockRaw
    ∧ cleanCurrentStock (some 20) none = 20
    ∧ badge_for_row (some 100) (some (cleanCurrentStock (some 20) none)) = Status.OK
    ∧ Status.OK ≠ Status.OUT_OF_STOCK := by
  refine ⟨rfl, rfl, by decide, by decide⟩

/-- C6 counterexample: `badge_for_row` on a row whose stock cell is
non-numeric (so `float(cur)` raises and the guarded checks are skipped)
and whose expiry is 100 days away returns OK, not OUT_OF_STOCK — the
stock is not treated as 0. -/
theorem classifier_skips_nonnumeric_stock :
    badge_for_row (some 100) none = Status.OK
    ∧ Status.OK ≠ Status.OUT_OF_STOCK := by
  refine ⟨by decide, by decide⟩

/-- C6 (amended): the classifier never raises on a non-numeric or missing
current_stock, but it does not treat the value as 0: the two stock-based
rules are skipped, so such an item is classified by expiry alone —
NO_EXPIRY_DATA without a date, else EXPIRED / EXPIRING_SOON / OK — and an
item with a far expiry is OK, not OUT_OF_STOCK.  (At snapshot load,
`load_items` instead replaces the unparseable cell with the par stock
value.) -/
theorem classifier_nonnumeric_stock_by_expiry (d : Int) :
    badge_for_row (some d) none =
      (if d ≤ 0 then Status.EXPIRED
       else if d ≤ 30 then Status.EXPIRING_SOON
       else Status.OK)
    ∧ badge_for_row none none = Status.NO_EXPIRY_DATA := by
  refine ⟨?_, rfl⟩
  simp only [badge_for_row, stockLE0, stockEq1]
  split_ifs <;> first | rfl | omega | simp_all

/-! ## Calendar dates, expiry parsing and the ETT exchange rule -/

/-- A calendar date, the embedding of a pandas `Timestamp`'s date part. -/
structure Date where
  year : Int
  month : Nat
  day : Nat
deriving DecidableEq, Repr

/-- Gregorian leap-year rule. -/
def isLeap (y : Int) : Bool := (y % 4 == 0 && y % 100 != 0) || y % 400 == 0

/-- Number of days of month `m` in year `y`. -/
def daysInMonth (y : Int) (m : Nat) : Nat :=
  if m = 2 then (if isLeap y then 29 else 28)
  else if m = 4 ∨ m = 6 ∨ m = 9 ∨ m = 11 then 30
  else 31

/-- A date is valid when its month and day are in range. -/
def validDate (dt : Date) : Bool :=
  decide (1 ≤ dt.month) && decide (dt.month ≤ 12) && decide (1 ≤ dt.day)
    && decide (dt.day ≤ daysInMonth dt.year dt.month)

/-- Days in the months of year `y` strictly before month `m`. -/
def daysBeforeMonth (y : Int) : Nat → Nat
  | 0 => 0
  | m + 1 => if m = 0 then 0 else daysBeforeMonth y m + daysInMonth y m

/-- Day number of a date (days since the proleptic Gregorian epoch), used
to take date differences the way `(ts - today).dt.days` does. -/
def toRataDie (dt : Date) : Int :=
  365 * (dt.year - 1)
    + ((dt.year - 1) / 4 - (dt.year - 1) / 100 + (dt.year - 1) / 400)
    + (daysBeforeMonth dt.year dt.month : Int) + (dt.day : Int)

/-- `Days_to_Expire = (EXP_Date_ts - today).dt.days` (src/item.py line
1164): `none` (NaT) propagates. -/
def daysToExpire (expOpt : Option Date) (today : Date) : Option Int :=
  expOpt.map (fun e => toRataDie e - toRataDie today)

/-- Total month index of a date, counted from year 0 month 1. -/
def monthIndex (dt : Date) : Int := dt.year * 12 + ((dt.month : Int) - 1)

/-- Calendar-month subtraction as performed by
`ts - pd.DateOffset(months=n)` (src/item.py line 1174): shift the month
index back by `n` and clamp the day to the last valid day of the target
month. -/
def subMonths (n : Nat) (dt : Date) : Date :=
  ⟨(monthIndex dt - (n : Int)) / 12,
   ((monthIndex dt - (n : Int)) % 12).toNat + 1,
   min dt.day
     (daysInMonth ((monthIndex dt - (n : Int)) / 12)
       (((monthIndex dt - (n : Int)) % 12).toNat + 1))⟩

/-- Word characters of the regex `\b` boundary (`[A-Za-z0-9_]` over the
ASCII names in the data). -/
def isWordChar (c : Char) : Bool := c.isAlphanum || c == '_'

/-- True when the (lowercased) character list starts with the token
`ett` followed by a word boundary. -/
def ettAt : List Char → Bool
  | 'e' :: 't' :: 't' :: rest =>
    match rest with
    | [] => true
    | c :: _ => !isWordChar c
  | _ => false

/-- Scan for `\bett\b` in a lowercased character list; `prev` is the
character before the current position (`none` at the start). -/
def ettScan : Option Char → List Char → Bool
  | _, [] => false
  | prev, c :: rest =>
    ((match prev with
      | none => true
      | some p => !isWordChar p) && ettAt (c :: rest))
    || ettScan (some c) rest

/-- `needle` matches at the head of the second list. -/
def matchesAt : List Char → List Char → Bool
  | [], _ => true
  | _ :: _, [] => false
  | a :: as, b :: bs => a == b && matchesAt as bs

/-- Substring containment on character lists. -/
def containsSub (needle : List Char) : List Char → Bool
  | [] => matchesAt needle []
  | c :: rest => matchesAt needle (c :: rest) || containsSub needle rest

/-- ASCII lowercasing of one character, the `case=False` normalization
over the ASCII item names. -/
def lowerChar (c : Char) : Char :=
  if 'A' ≤ c ∧ c ≤ 'Z' then Char.ofNat (c.toNat + 32) else c

/-- Embedding of the `Is_ETT` test (src/item.py lines 1167-1169):
`str.contains(r"\bETT\b|endotracheal", case=False)` — case-insensitive
whole-word `ETT` or substring `endotracheal`. -/
def isETT (name : String) : Bool :=
  ettScan none (name.data.map lowerChar)
    || containsSub ("endotracheal".data) (name.data.map lowerChar)

/-- Embedding of the `Exchange_Due_ts` computation (src/item.py lines
1172-1174): defined only for ETT items with a parsed expiry, as the
expiry minus 24 calendar months. -/
def exchangeDue (name : String) (expDate : Option Date) : Option Date :=
  if isETT name then Option.map (subMonths 24) expDate else none

/-- C4: for every ETT-named item with a (valid-month) expiry date, the
exchange due date is the expiry minus 24 calendar months — same year
minus 2, same month, day clamped to the target month's length; the
concrete spec scenarios hold (2027-03-15 to 2025-03-15;
2026-02-28 to the valid date 2024-02-28), and non-ETT items or items
without expiry get no exchange due date. -/
theorem ett_exchange_due_rule (name : String) (e : Date)
    (hett : isETT name = true) (hm1 : 1 ≤ e.month) (hm2 : e.month ≤ 12) :
    exchangeDue name (some e) =
      some ⟨e.year - 2, e.month, min e.day (daysInMonth (e.year - 2) e.month)⟩
    ∧ exchangeDue name none = none
    ∧ (∀ nm : String, ∀ oe : Option Date, isETT nm = false →
        exchangeDue nm oe = none)
    ∧ exchangeDue "ETT 7.0" (some ⟨2027, 3, 15⟩) = some ⟨2025, 3, 15⟩
    ∧ exchangeDue "endotracheal tube" (some ⟨2026, 2, 28⟩) = some ⟨2024, 2, 28⟩
    ∧ validDate ⟨2024, 2, 28⟩ = true
    ∧ isETT "NSS 1000ml" = false := by
  refine ⟨?_, by simp [exchangeDue, hett],
    fun nm oe h => by simp [exchangeDue, h],
    by decide, by decide, by decide, by decide⟩
  have hmap : exchangeDue name (some e) = some (subMonths 24 e) := by
    simp [exchangeDue, hett]
  have hdiv : (monthIndex e - ((24 : Nat) : Int)) / 12 = e.year - 2 := by
    simp only [monthIndex]
    omega
  have hmod : ((monthIndex e - ((24 : Nat) : Int)) % 12).toNat + 1 = e.month := by
    simp only [monthIndex]
    omega
  rw [hmap]
  simp only [subMonths, hdiv, hmod]

/-- C4 keeps valid dates valid: the clamped result of the 24-month
subtraction is again a valid calendar date. -/
theorem ett_exchange_due_valid (e : Date) (hv : validDate e = true)
    (hm2 : e.month ≤ 12) :
    validDate (subMonths 24 e) = true := by
  simp only [validDate, Bool.and_eq_true, decide_eq_true_eq] at hv ⊢
  obtain ⟨⟨⟨h1, h2⟩, h3⟩, h4⟩ := hv
  have hdiv : (monthIndex e - ((24 : Nat) : Int)) / 12 = e.year - 2 := by
    simp only [monthIndex]
    omega
  have hmod : ((monthIndex e - ((24 : Nat) : Int)) % 12).toNat + 1 = e.month := by
    simp only [monthIndex]
    omega
  simp only [subMonths, hdiv, hmod]
  have hpos : 1 ≤ daysInMonth (e.year - 2) e.month := by
    simp only [daysInMonth]
    split_ifs <;> omega
  exact ⟨⟨⟨h1, h2⟩, by omega⟩, by omega⟩

/-! ## Expiry-date parsing (claim C7) -/

/-- Numeric value of an ASCII digit. -/
def digitVal (c : Char) : Option Nat :=
  if c.isDigit then some (c.toNat - 48) else none

/-- Four-digit number. -/
def num4 (a b c d : Char) : Option Nat := do
  let x1 ← digitVal a
  let x2 ← digitVal b
  let x3 ← digitVal c
  let x4 ← digitVal d
  pure (((x1 * 10 + x2) * 10 + x3) * 10 + x4)

/-- Two-digit number. -/
def num2 (a b : Char) : Option Nat := do
  let x1 ← digitVal a
  let x2 ← digitVal b
  pure (x1 * 10 + x2)

/-- A candidate date is kept only when it is a real calendar date. -/
def mkValidDate (y m d : Nat) : Option Date :=
  let dt : Date := ⟨(y : Int), m, d⟩
  if validDate dt then some dt else none

/-- Embedding of `pd.to_datetime(df_items["EXP_Date"], errors="coerce",
format="mixed", dayfirst=True)` (src/item.py line 1160), restricted to
the two formats the data uses: ISO `YYYY-MM-DD` and `DD/MM/YYYY`.  Any
other string, an impossible calendar date, or a missing cell coerces to
NaT (`none`); the call never raises. -/
def parseEXPDate (s : Option String) : Option Date :=
  match s with
  | none => none
  | some str =>
    match str.toList with
    | [y1, y2, y3, y4, '-', m1, m2, '-', d1, d2] =>
      match num4 y1 y2 y3 y4, num2 m1 m2, num2 d1 d2 with
      | some y, some m, some d => mkValidDate y m d
      | _, _, _ => none
    | [d1, d2, '/', m1, m2, '/', y1, y2, y3, y4] =>
      match num4 y1 y2 y3 y4, num2 m1 m2, num2 d1 d2 with
      | some y, some m, some d => mkValidDate y m d
      | _, _, _ => none
    | _ => none

/-- C7: an expiry string that fails to parse coerces to NaT, so
`Days_to_Expire` is undefined and the classifier returns NO_EXPIRY_DATA —
the same status as for an absent expiry date — without raising. -/
theorem malformed_expiry_is_no_expiry_data (s : String) (today : Date)
    (cur : Option Int) (hbad : parseEXPDate (some s) = none) :
    daysToExpire (parseEXPDate (some s)) today = none
    ∧ badge_for_row (daysToExpire (parseEXPDate (some s)) today) cur
        = Status.NO_EXPIRY_DATA
    ∧ badge_for_row (daysToExpire (parseEXPDate none) today) cur
        = Status.NO_EXPIRY_DATA := by
  rw [hbad]
  exact ⟨rfl, rfl, rfl⟩

/-! ## Equipment latest-status resolver (claim C5) -/

/-- The four `daily_checks.status` values allowed by the CHECK constraint
(src/item.py line 616). -/
inductive CheckStatus where
  | READY            -- 'พร้อมใช้'
  | NOT_READY        -- 'ไม่พร้อมใช้'
  | BORROWED         -- 'วอร์ดอื่นยืม'
  | AWAITING_REPAIR  -- 'รอซ่อม'
deriving DecidableEq, Repr

/-- One row of `daily_checks` (src/item.py lines 609-622); `id` is the
AUTOINCREMENT primary key, strictly increasing per insert. -/
structure CheckRecord where
  id : Nat
  check_date : String
  check_time : String
  status : CheckStatus
  borrowed_to : Option String
  remark : Option String
  checked_by : Option String
deriving DecidableEq, Repr

/-- The dashboard's view of a unit: either the status of its latest check
record, or the distinct not-yet-checked state rendered as the gray badge
(src/item.py lines 892-897). -/
inductive LatestStatus where
  | notYetChecked
  | checked (s : CheckStatus)
deriving DecidableEq, Repr

/-- Step of the max-id reduction: `r` against the best record so far. -/
def maxRec (r : CheckRecord) : Option CheckRecord → CheckRecord
  | none => r
  | some a => if a.id < r.id then r else a

/-- The subquery `SELECT MAX(id) FROM daily_checks GROUP BY equipment_id`
of `get_latest_status` (src/item.py lines 780-788), for one unit's
records: the record with the greatest id, `none` when there are none. -/
def latestRecord : List CheckRecord → Option CheckRecord
  | [] => none
  | r :: rest => some (maxRec r (latestRecord rest))

/-- Embedding of `get_latest_status` (src/item.py lines 763-793) joined
with the dashboard's NULL handling (lines 892-897) for a single unit:
units with no check rows get the not-yet-checked state, others the
status of their max-id record. -/
def get_latest_status (rs : List CheckRecord) : LatestStatus :=
  match latestRecord rs with
  | none => LatestStatus.notYetChecked
  | some r => LatestStatus.checked r.status

lemma latestRecord_mem (rs : List CheckRecord) (b : CheckRecord)
    (h : latestRecord rs = some b) : b ∈ rs := by
  induction rs with
  | nil => cases h
  | cons a rest ih =>
    simp only [latestRecord, Option.some_inj] at h
    cases hrest : latestRecord rest with
    | none =>
      rw [hrest] at h
      simp only [maxRec] at h
      subst h
      exact List.mem_cons_self _ _
    | some c =>
      rw [hrest] at h
      simp only [maxRec] at h
      split_ifs at h
      · subst h
        exact List.mem_cons_self _ _
      · subst h
        exact List.mem_cons_of_mem _ (ih hrest)

/-- C5: a unit's current status is the status of its check record with
the highest id, superseded records never matter; a unit with zero
records gets the not-yet-checked state, which differs from every one of
the four check statuses (NOT_READY included). -/
theorem latest_status_is_max_id (rs : List CheckRecord) (r : CheckRecord)
    (hmem : r ∈ rs) (hmax : ∀ x ∈ rs, x ≠ r → x.id < r.id) :
    get_latest_status rs = LatestStatus.checked r.status
    ∧ get_latest_status [] = LatestStatus.notYetChecked
    ∧ (∀ s : CheckStatus, LatestStatus.notYetChecked ≠ LatestStatus.checked s) := by
  refine ⟨?_, rfl, fun s => by simp⟩
  suffices h : latestRecord rs = some r by
    simp [get_latest_status, h]
  induction rs with
  | nil => cases hmem
  | cons a rest ih =>
    by_cases ha : a = r
    · subst ha
      cases hrest : latestRecord rest with
      | none => simp [latestRecord, hrest, maxRec]
      | some b =>
        by_cases hba : b = a
        · subst hba
          simp [latestRecord, hrest, maxRec]
        · have hb : b ∈ rest := latestRecord_mem rest b hrest
          have hlt : b.id < a.id := hmax b (List.mem_cons_of_mem a hb) hba
          simp [latestRecord, hrest, maxRec, if_pos hlt]
    · have hmem' : r ∈ rest := by
        cases hmem with
        | head => exact absurd rfl ha
        | tail _ h => exact h
      have hmax' : ∀ x ∈ rest, x ≠ r → x.id < r.id := fun x hx =>
        hmax x (List.mem_cons_of_mem a hx)
      have hrest := ih hmem' hmax'
      have haid : a.id < r.id := hmax a (List.mem_cons_self a rest) ha
      simp [latestRecord, hrest, maxRec, if_neg (by omega : ¬ r.id < a.id)]

/-! ## Concrete witnesses instantiating the theorems above -/

/-- Witness for C1: an item expiring today with stock 5 is EXPIRED. -/
theorem classifier_matches_spec_priority_witness :
    0 < (5 : Int) ∧ badge_for_row (some 0) (some 5) = Status.EXPIRED :=
  ⟨by decide, (classifier_matches_spec_priority (some 0) 5).2.1 (by decide)⟩

/-- Witness for C2 at the divergent case the characterization exposes: a
single member with no expiry date (status NO_EXPIRY_DATA) and stock 0
makes its bundle NOT_READY. -/
theorem bundle_ready_raw_characterization_witness :
    bundleReady 30 (normalizeGroup [⟨"stylet", none, some 0⟩]) = false :=
  ((bundle_ready_raw_characterization [⟨"stylet", none, some 0⟩]).2.2.1
    ⟨"stylet", none, some 0⟩ (by decide) rfl).2.mpr (by decide)

/-- Witness for C8 at the two-member group used in the counterexample's
first-seen comparison, but evaluated through the general order theorem. -/
theorem blocker_names_order_witness :
    blockerNames 30 [⟨"NSS 500ml", 5, 2⟩, ⟨"IV Cannula 18G", 50, 0⟩]
      = dropDupNames [] ((expiredOf [⟨"NSS 500ml", 5, 2⟩, ⟨"IV Cannula 18G", 50, 0⟩]).map (fun r => r.name)
        ++ (expSoonOf 30 [⟨"NSS 500ml", 5, 2⟩, ⟨"IV Cannula 18G", 50, 0⟩]).map (fun r => r.name)
        ++ (outStockOf [⟨"NSS 500ml", 5, 2⟩, ⟨"IV Cannula 18G", 50, 0⟩]).map (fun r => r.name)) :=
  blocker_names_order 30 [⟨"NSS 500ml", 5, 2⟩, ⟨"IV Cannula 18G", 50, 0⟩]

/-- Witness for C3: consuming 5 from stock 3 is rejected as
InvalidQuantity, via the general error characterization. -/
theorem cut_stock_error_cases_witness :
    db_cut_stock (some 3) 5 = Except.error StockErr.invalidQty :=
  (cut_stock_error_cases (some 3) 5).2.2.2.1

/-- Witness for C4 at the spec's scenario: "ETT 7.0" expiring 2027-03-15
is exchanged by 2025-03-15. -/
theorem ett_exchange_due_rule_witness :
    isETT "ETT 7.0" = true
    ∧ exchangeDue "ETT 7.0" (some ⟨2027, 3, 15⟩) = some ⟨2025, 3, 15⟩ :=
  ⟨by decide,
    ((ett_exchange_due_rule "ETT 7.0" ⟨2027, 3, 15⟩ (by decide) (by decide)
      (by decide)).1).trans (by decide)⟩

/-- Witness for the validity part of C4: 2026-02-28 is valid and so is
its 24-month-earlier exchange date. -/
theorem ett_exchange_due_valid_witness :
    validDate ⟨2026, 2, 28⟩ = true
    ∧ validDate (subMonths 24 ⟨2026, 2, 28⟩) = true :=
  ⟨by decide, ett_exchange_due_valid ⟨2026, 2, 28⟩ (by decide) (by decide)⟩

/-- Witness for C5: of two check records the max-id one (NOT_READY)
wins. -/
theorem latest_status_is_max_id_witness :
    get_latest_status
      [⟨1, "2025-01-01", "08:00:00", CheckStatus.READY, none, none, some "System"⟩,
       ⟨2, "2025-01-02", "08:15:00", CheckStatus.NOT_READY, none, none, some "System"⟩]
      = LatestStatus.checked CheckStatus.NOT_READY :=
  (latest_status_is_max_id
    [⟨1, "2025-01-01", "08:00:00", CheckStatus.READY, none, none, some "System"⟩,
     ⟨2, "2025-01-02", "08:15:00", CheckStatus.NOT_READY, none, none, some "System"⟩]
    ⟨2, "2025-01-02", "08:15:00", CheckStatus.NOT_READY, none, none, some "System"⟩
    (by decide) (by decide)).1

/-- Witness for C6: an item expiring in 10 days with a non-numeric stock
cell is classified by expiry alone as EXPIRING_SOON. -/
theorem classifier_nonnumeric_stock_by_expiry_witness :
    badge_for_row (some 10) none = Status.EXPIRING_SOON :=
  ((classifier_nonnumeric_stock_by_expiry 10).1).trans (by decide)

/-- Witness for C7: the string `13/13/2026` (month 13) fails to parse and
the classifier reports NO_EXPIRY_DATA. -/
theorem malformed_expiry_is_no_expiry_data_witness :
    parseEXPDate (some "13/13/2026") = none
    ∧ badge_for_row (daysToExpire (parseEXPDate (some "13/13/2026")) ⟨2026, 1, 1⟩)
        (some 5) = Status.NO_EXPIRY_DATA :=
  ⟨by decide,
    (malformed_expiry_is_no_expiry_data "13/13/2026" ⟨2026, 1, 1⟩ (some 5)
      (by decide)).2.1⟩

/-- Witness for C9: from stock 3 (par 5), cutting 2, resetting and then
failing to cut 10 leaves a non-negative current stock. -/
theorem stock_never_negative_witness :
    0 ≤ (runOps ⟨5, 3⟩ [StockOp.cut 2, StockOp.reset, StockOp.cut 10]).current_stock :=
  (stock_never_negative ⟨5, 3⟩ [StockOp.cut 2, StockOp.reset, StockOp.cut 10]
    (by decide) (by decide)).1

/-- Witness for C10: a row with par stock 20 and an unparseable current
stock enters the classifier with stock 20. -/
theorem load_fills_current_stock_with_par_witness :
    cleanCurrentStock (some 20) none = 20 :=
  (load_fills_current_stock_with_par (some 20)).2.1

end EmergencyCart
